import Mathlib

/-!
Verification development for the `async_logger_log` crate: a non-blocking
logging bridge over an external double-buffered transfer queue.

The embedding translates `src/lib.rs` into Lean. Rust strings are
modelled as `List Char`, `usize` as `Nat` bounded by `USIZE_MAX`, and the
impure calls (file system, system clock, the external queue) as explicit
state passing. The external collaborator crate (`async_logger`: the
`AsyncLoggerNB` transfer queue, the `FileWriter` rotating file writer and
their `Error` type) is not part of this repository's sources, so its
behaviour is modelled from the contract stated in the specification.
-/

set_option autoImplicit false

/-- Rust `String` / `&str`, modelled as a list of characters. -/
abbrev Str := List Char

/-- Log severity level of the `log` facade, most severe first.
The numeric codes follow the `log` crate: `Error = 1`, ..., `Trace = 5`. -/
inductive Level where
  | error
  | warn
  | info
  | debug
  | trace
  deriving DecidableEq, Repr

/-- Numeric severity code of a level, as in the `log` crate. -/
def Level.toNat : Level → Nat
  | .error => 1
  | .warn => 2
  | .info => 3
  | .debug => 4
  | .trace => 5

/-- Upper-case display name of a level, as rendered by the `log` crate's
`Display` implementation. -/
def Level.name : Level → Str
  | .error => ("ERROR").data
  | .warn => ("WARN").data
  | .info => ("INFO").data
  | .debug => ("DEBUG").data
  | .trace => ("TRACE").data

/-- The global maximum-level filter of the `log` facade (`log::max_level()`).
Numeric codes as in the `log` crate: `Off = 0`, `Error = 1`, ..., `Trace = 5`. -/
inductive LevelFilter where
  | off
  | error
  | warn
  | info
  | debug
  | trace
  deriving DecidableEq, Repr

/-- Numeric code of a level filter, as in the `log` crate. -/
def LevelFilter.toNat : LevelFilter → Nat
  | .off => 0
  | .error => 1
  | .warn => 2
  | .info => 3
  | .debug => 4
  | .trace => 5

/-- The set of levels a filter admits, written out as the severity ladder of
the specification (`Off` admits nothing, `Error` only errors, each wider
filter adds the next less severe level). This is the specification-side
notion of a level being at or below the threshold. -/
def LevelFilter.allowedLevels : LevelFilter → List Level
  | .off => []
  | .error => [.error]
  | .warn => [.error, .warn]
  | .info => [.error, .warn, .info]
  | .debug => [.error, .warn, .info, .debug]
  | .trace => [.error, .warn, .info, .debug, .trace]

/-- Specification-side predicate: `l` is at or below the threshold `f`. -/
def LevelFilter.allows (f : LevelFilter) (l : Level) : Prop :=
  l ∈ f.allowedLevels

instance (f : LevelFilter) (l : Level) : Decidable (f.allows l) := by
  unfold LevelFilter.allows
  infer_instance

/-- The `log::Metadata` type: the level and target of a log invocation. -/
structure Metadata where
  level : Level
  target : Str
  deriving DecidableEq, Repr

/-- The `log::Record` type: level, target and the rendered message (`args()`). -/
structure Record where
  level : Level
  target : Str
  args : Str
  deriving DecidableEq, Repr

/-- Error kinds of the collaborator crate's `Error` type.
Modelled from the spec: the construction error distinguishes an
"incorrect buffer size" kind from an "I/O" kind; submission to an already
shut-down queue fails with a termination kind. -/
inductive ErrorKind where
  | incorrectBufferSize
  | ioError
  | terminated
  deriving DecidableEq, Repr

/-- The collaborator crate's `Error`; `kind` mirrors `Error::kind()`. -/
structure Error where
  kind : ErrorKind
  deriving DecidableEq, Repr

/-- A writer strategy instance: either the default rotating file writer
(with its directory and rotation size) or an opaque custom sink. -/
inductive LogWriter where
  | fileWriter (dir : Str) (maxSize : Nat)
  | custom (id : Nat)
  deriving DecidableEq, Repr

/-- The file system visible to the writer: the set of usable (existing,
writable) directories. -/
structure FileSystem where
  usableDirs : List Str
  deriving DecidableEq, Repr

/-- The ambient world threaded through construction: the file system and
the trace of writer resources created so far. -/
structure World where
  fs : FileSystem
  createdWriters : List LogWriter
  deriving DecidableEq, Repr

/-- Modelled from the spec: `FileWriter::new(directory, max_file_size_bytes)`
of the collaborator crate succeeds iff the directory is usable, creating the
writer resource; an unusable directory yields the I/O error kind. -/
def FileWriter.new (w : World) (log_dir : Str) (file_size : Nat) :
    World × Except Error LogWriter :=
  if log_dir ∈ w.fs.usableDirs then
    ({ w with createdWriters := w.createdWriters ++ [LogWriter.fileWriter log_dir file_size] },
     Except.ok (LogWriter.fileWriter log_dir file_size))
  else
    (w, Except.error ⟨ErrorKind.ioError⟩)

/-- Largest value representable by `usize` (64-bit). -/
def USIZE_MAX : Nat := 2 ^ 64 - 1

/-- The constructed transfer queue client: its writer and buffer capacity. -/
structure AsyncLoggerNB where
  writer : LogWriter
  buf_sz : Nat
  deriving DecidableEq, Repr

/-- Modelled from the spec: `AsyncLoggerNB::new(writer, capacity)` of the
collaborator crate fails with the incorrect-buffer-size kind for capacity
zero or the maximum representable value, and succeeds for every capacity
strictly between. -/
def AsyncLoggerNB.new (writer : LogWriter) (buf_sz : Nat) : Except Error AsyncLoggerNB :=
  if buf_sz = 0 ∨ buf_sz = USIZE_MAX then Except.error ⟨ErrorKind.incorrectBufferSize⟩
  else Except.ok ⟨writer, buf_sz⟩

/-- Nanoseconds since the UNIX epoch of the current system time; negative
when the clock is set before the epoch. This models the result of
`std::time::SystemTime::now()` relative to `UNIX_EPOCH`. -/
abbrev ClockNanos := Int

/-- Result of `SystemTime::now().duration_since(UNIX_EPOCH)`: `Err` when the clock is
before the epoch, otherwise the duration in nanoseconds. -/
def duration_since_epoch (now : ClockNanos) : Except Unit Nat :=
  if 0 ≤ now then Except.ok now.toNat else Except.error ()

/-- Decimal rendering of an unsigned integer, as Rust's `Display` for `u64`. -/
def natToStr (n : Nat) : Str := (Nat.repr n).data

/-- The function `Logger::format_msg` with the `time` feature disabled (`src/lib.rs`
lines 145-161): the timestamp is
`SystemTime::now().duration_since(UNIX_EPOCH).unwrap_or(Duration::new(0,0)).as_secs()`
and the line is `format!("[{} {} {}]: {}\n", time, level, target, args)`. -/
def Logger.format_msg (now : ClockNanos) (r : Record) : Str :=
  let time := ((duration_since_epoch now).toOption.getD 0) / 1000000000
  ("[").data ++ natToStr time ++ (" ").data ++ r.level.name ++ (" ").data ++
    r.target ++ ("]: ").data ++ r.args ++ ("\n").data

/-- Modelled from the spec: `Logger::format_msg` with the `time` feature
enabled, whose timestamp is
`OffsetDateTime::now_local().format("%Y-%m-%d %H:%M:%S.%N%z")`; the
formatted local date-time is an opaque string parameter here, and the
surrounding line format is the same `format!` call of the source. -/
def Logger.format_msg_time (timeStr : Str) (r : Record) : Str :=
  ("[").data ++ timeStr ++ (" ").data ++ r.level.name ++ (" ").data ++
    r.target ++ ("]: ").data ++ r.args ++ ("\n").data

/-- The `Logger` struct (`src/lib.rs` lines 110-113): the shared transfer queue client
and the formatter function pointer. The formatter takes the clock reading
explicitly, reflecting its internal call to the system clock. -/
structure Logger where
  async_logger : AsyncLoggerNB
  formatter : ClockNanos → Record → Str

/-- Constructor `Logger::new(log_dir, buf_sz, file_size)` (`src/lib.rs` lines 122-134):
builds the `FileWriter` first, then the queue client, then the `Logger`
with the default formatter; either failure is returned as-is. -/
def Logger.new (w : World) (log_dir : Str) (buf_sz : Nat) (file_size : Nat) :
    World × Except Error Logger :=
  match FileWriter.new w log_dir file_size with
  | (w1, Except.error e) => (w1, Except.error e)
  | (w1, Except.ok writer) =>
    match AsyncLoggerNB.new writer buf_sz with
    | Except.error e => (w1, Except.error e)
    | Except.ok al => (w1, Except.ok ⟨al, Logger.format_msg⟩)

/-- The `LoggerBuilder` struct (`src/lib.rs` lines 186-190). -/
structure LoggerBuilder where
  buf_sz : Option Nat
  writer : Option LogWriter
  formatter : Option (ClockNanos → Record → Str)

/-- Factory `Logger::builder()` (`src/lib.rs` lines 137-143): all fields unset. -/
def Logger.builder : LoggerBuilder :=
  { buf_sz := none, writer := none, formatter := none }

/-- Setter `LoggerBuilder::buf_size` (`src/lib.rs` lines 195-198). -/
def LoggerBuilder.buf_size (b : LoggerBuilder) (size : Nat) : LoggerBuilder :=
  { b with buf_sz := some size }

/-- Setter `LoggerBuilder::formatter` (`src/lib.rs` lines 201-204); named
`set_formatter` here because the field projection takes the source name. -/
def LoggerBuilder.set_formatter (b : LoggerBuilder)
    (formatter : ClockNanos → Record → Str) : LoggerBuilder :=
  { b with formatter := some formatter }

/-- Setter `LoggerBuilder::writer` (`src/lib.rs` lines 207-210); named
`set_writer` here because the field projection takes the source name. -/
def LoggerBuilder.set_writer (b : LoggerBuilder) (writer : LogWriter) : LoggerBuilder :=
  { b with writer := some writer }

/-- Default buffer capacity (`src/lib.rs` line 105). -/
def DEFAULT_BUF_SIZE : Nat := 256

/-- Default log file rotation size (`src/lib.rs` line 106). -/
def DEFAULT_LOG_FILE_SIZE : Nat := 10 * 1024 * 1024

/-- Finaliser `LoggerBuilder::build` (`src/lib.rs` lines 213-236): resolve the buffer
size (default 256), then the writer (default: `FileWriter` over the current
directory with the default rotation size), then the formatter (default
`Logger::format_msg`), then construct the queue client. -/
def LoggerBuilder.build (w : World) (b : LoggerBuilder) : World × Except Error Logger :=
  let buf_sz := match b.buf_sz with
    | some buf_sz => buf_sz
    | none => DEFAULT_BUF_SIZE
  match b.writer with
  | some writer =>
    let formatter := match b.formatter with
      | some formatter => formatter
      | none => Logger.format_msg
    (match AsyncLoggerNB.new writer buf_sz with
     | Except.error e => (w, Except.error e)
     | Except.ok al => (w, Except.ok ⟨al, formatter⟩))
  | none =>
    match FileWriter.new w (".").data DEFAULT_LOG_FILE_SIZE with
    | (w1, Except.error e) => (w1, Except.error e)
    | (w1, Except.ok writer) =>
      let formatter := match b.formatter with
        | some formatter => formatter
        | none => Logger.format_msg
      match AsyncLoggerNB.new writer buf_sz with
      | Except.error e => (w1, Except.error e)
      | Except.ok al => (w1, Except.ok ⟨al, formatter⟩)

/-- Predicate `Logger::enabled` (`src/lib.rs` lines 166-169):
`metadata.level() <= log::max_level()`, the `log` crate's numeric
comparison of a level against the global filter. The global threshold is
passed explicitly; nothing else is read. -/
def Logger.enabled (max_level : LevelFilter) (m : Metadata) : Bool :=
  m.level.toNat ≤ max_level.toNat

/-- Modelled from the spec: runtime state of the transfer queue. `pending`
holds the lines accepted by `write_value` (in submission order) not yet
handed to the writer strategy, `delivered` the lines already passed to the
writer strategy, and `shutdown` whether the queue has been shut down. -/
structure QueueState where
  pending : List Str
  delivered : List Str
  shutdown : Bool
  deriving DecidableEq, Repr

/-- Modelled from the spec: `AsyncLoggerNB::write_value` appends the line
to the queue (blocking until space frees is invisible here), or fails with
the termination kind when the queue is already shut down. -/
def AsyncLoggerNB.write_value (q : QueueState) (msg : Str) :
    QueueState × Except Error Unit :=
  if q.shutdown then (q, Except.error ⟨ErrorKind.terminated⟩)
  else ({ q with pending := q.pending ++ [msg] }, Except.ok ())

/-- Modelled from the spec: `AsyncLoggerNB::flush` drains the queue,
handing every pending line to the writer strategy in order, and returns
only once all of them have reached it. -/
def AsyncLoggerNB.flush (q : QueueState) : QueueState :=
  { pending := [], delivered := q.delivered ++ q.pending, shutdown := q.shutdown }

/-- Method `Logger::log` (`src/lib.rs` lines 171-176): format the record with the
stored formatter and submit the line; the `Result` of `write_value` is
bound to `_` and discarded, so the function is total and returns only the
new queue state, never an error. -/
def Logger.log (l : Logger) (q : QueueState) (now : ClockNanos) (r : Record) :
    QueueState :=
  let msg := l.formatter now r
  (AsyncLoggerNB.write_value q msg).1

/-- Method `Logger::flush` (`src/lib.rs` lines 178-181): delegate to
`AsyncLoggerNB::flush`. -/
def Logger.flush (_l : Logger) (q : QueueState) : QueueState :=
  AsyncLoggerNB.flush q

/-- The error kind of a failed result, `none` on success; mirrors matching
on `Err(e) if e.kind() == ...` in the repository's tests. -/
def resultErrorKind {α : Type} (r : Except Error α) : Option ErrorKind :=
  match r with
  | Except.error e => some e.kind
  | Except.ok _ => none

/-- A sequence of `Logger::log` calls from one thread: each event is the
clock reading at the call together with the record. -/
def logAll (l : Logger) (q : QueueState) (evs : List (ClockNanos × Record)) :
    QueueState :=
  evs.foldl (fun acc e => Logger.log l acc e.1 e.2) q

/-- Number of consecutive newline characters at the end of a string. -/
def trailingNewlineCount (s : Str) : Nat :=
  (s.reverse.takeWhile (fun c => c == '\n')).length

/-! Sample values used by the closed witness statements. -/

/-- A usable sample log directory name. -/
def sampleDir : Str := ("logs").data

/-- A world where only `sampleDir` exists and nothing has been created. -/
def sampleWorld : World := ⟨⟨[sampleDir]⟩, []⟩

/-- A world whose file system has no usable directory at all. -/
def emptyWorld : World := ⟨⟨[]⟩, []⟩

/-- A world where only the current directory `.` is usable. -/
def dotWorld : World := ⟨⟨[(".").data]⟩, []⟩

/-- A sample custom writer. -/
def sampleWriter : LogWriter := LogWriter.custom 0

/-- A sample logger with the default formatter. -/
def sampleLogger : Logger := ⟨⟨sampleWriter, 256⟩, Logger.format_msg⟩

/-- A sample record. -/
def sampleRecord : Record := ⟨Level.warn, ("thread").data, ("log message").data⟩

/-- An empty, running queue. -/
def openQueue : QueueState := ⟨[], [], false⟩

/-- An empty, shut-down queue. -/
def shutQueue : QueueState := ⟨[], [], true⟩

example : Logger.format_msg 0 sampleRecord
    = ("[0 WARN thread]: log message\n").data := by decide

/-- C3: `Logger::enabled(metadata)` returns true iff the metadata's level is
at or below the configured global severity threshold (`log::max_level()`),
which is read as an explicit parameter and is the only state consulted. -/
theorem enabled_iff_level_at_or_below_threshold (f : LevelFilter) (m : Metadata) :
    Logger.enabled f m = true ↔ f.allows m.level := by
  obtain ⟨l, t⟩ := m
  cases f <;> cases l <;>
    simp [Logger.enabled, LevelFilter.allows, LevelFilter.allowedLevels,
      Level.toNat, LevelFilter.toNat]

/-- C2: `Logger::log` is total (it can neither panic nor return an error to
the caller): it formats the record, submits the line to the queue, and
discards the result of `write_value`. When the queue is running the line is
appended to the pending queue; when the queue is shut down the submission
error is swallowed and the call is a no-op. -/
theorem log_swallows_submit_error (l : Logger) (q : QueueState)
    (now : ClockNanos) (r : Record) :
    (q.shutdown = true → Logger.log l q now r = q) ∧
    (q.shutdown = false →
      Logger.log l q now r = { q with pending := q.pending ++ [l.formatter now r] }) := by
  constructor <;> intro h <;>
    simp [Logger.log, AsyncLoggerNB.write_value, h]

/-- C2 witness: at a concrete logger and record, the call on a shut-down
queue is a no-op and on a running queue appends the formatted line. -/
theorem log_swallows_submit_error_witness :
    Logger.log sampleLogger shutQueue 0 sampleRecord = shutQueue ∧
    Logger.log sampleLogger openQueue 0 sampleRecord =
      { openQueue with pending := openQueue.pending ++ [sampleLogger.formatter 0 sampleRecord] } :=
  ⟨(log_swallows_submit_error sampleLogger shutQueue 0 sampleRecord).1 rfl,
   (log_swallows_submit_error sampleLogger openQueue 0 sampleRecord).2 rfl⟩

/-- C9: `Logger::log` performs no level filtering of its own: even for a
record whose level the current global threshold rejects (`enabled` is
false), the record is formatted and submitted to the queue. -/
theorem log_no_level_filtering (f : LevelFilter) (l : Logger) (q : QueueState)
    (now : ClockNanos) (r : Record) (hq : q.shutdown = false)
    (_hdis : Logger.enabled f ⟨r.level, r.target⟩ = false) :
    (Logger.log l q now r).pending = q.pending ++ [l.formatter now r] := by
  simp [Logger.log, AsyncLoggerNB.write_value, hq]

/-- C9 witness: with the global threshold `Off`, a Warn record is disabled
yet still submitted by `log`. -/
theorem log_no_level_filtering_witness :
    (Logger.log sampleLogger openQueue 0 sampleRecord).pending =
      openQueue.pending ++ [sampleLogger.formatter 0 sampleRecord] :=
  log_no_level_filtering LevelFilter.off sampleLogger openQueue 0 sampleRecord
    rfl (by decide)

/-- C10: with the `time` feature disabled, a system clock set before the
UNIX epoch does not make `format_msg` fail: `duration_since` fails, the
`unwrap_or` substitutes a zero duration, and the record is rendered with
timestamp `0`. -/
theorem format_msg_pre_epoch_clock_zero (now : ClockNanos) (r : Record)
    (h : now < 0) :
    Logger.format_msg now r =
      ("[0 ").data ++ r.level.name ++ (" ").data ++ r.target ++ ("]: ").data
        ++ r.args ++ ("\n").data := by
  have hne : ¬ (0 ≤ now) := not_le.mpr h
  have h0 : natToStr 0 = [Char.ofNat 48] := rfl
  simp [Logger.format_msg, duration_since_epoch, hne, Except.toOption, h0]

/-- C10 witness: a clock one nanosecond before the epoch renders the sample
record with timestamp `0`. -/
theorem format_msg_pre_epoch_clock_zero_witness :
    Logger.format_msg (-1) sampleRecord =
      ("[0 ").data ++ sampleRecord.level.name ++ (" ").data ++ sampleRecord.target
        ++ ("]: ").data ++ sampleRecord.args ++ ("\n").data :=
  format_msg_pre_epoch_clock_zero (-1) sampleRecord (by decide)

/-- C7: for every capacity in the legal range and any rotation size,
`Logger::new` on a directory that is not usable fails with the I/O error
kind (the `FileWriter` cannot be initialized). -/
theorem new_missing_dir_io_error (w : World) (dir : Str) (n file_size : Nat)
    (hdir : dir ∉ w.fs.usableDirs) (_h0 : 0 < n) (_hm : n < USIZE_MAX) :
    resultErrorKind (Logger.new w dir n file_size).2 = some ErrorKind.ioError := by
  simp [Logger.new, FileWriter.new, hdir, resultErrorKind]

/-- C7 witness: in a world with no usable directory, `Logger::new` with a
legal capacity fails with the I/O kind. -/
theorem new_missing_dir_io_error_witness :
    resultErrorKind (Logger.new emptyWorld sampleDir 100 4096).2
      = some ErrorKind.ioError :=
  new_missing_dir_io_error emptyWorld sampleDir 100 4096 (by decide) (by decide)
    (by decide)

/-- C1 counterexample: the claim quantifies over every log directory, but
`Logger::new` builds the `FileWriter` before the queue client, so for a
directory that does not exist a buffer capacity of `0` yields the I/O error
kind, not the incorrect-buffer-size kind. -/
theorem buffer_size_bounds_dir_order_cex :
    resultErrorKind (Logger.new emptyWorld sampleDir 0 4096).2
        = some ErrorKind.ioError ∧
    some ErrorKind.ioError ≠ some ErrorKind.incorrectBufferSize := by
  constructor
  · rfl
  · decide


/-! Evaluation lemmas for the modelled collaborator operations. They let the
construction paths be rewritten symbolically, without ever evaluating the
`USIZE_MAX` comparison on concrete huge numerals. -/

/-- Evaluation of `FileWriter::new` on a usable directory: the writer is created and
recorded in the world's resource trace. -/
theorem FileWriter.new_usable (w : World) (dir : Str) (file_size : Nat)
    (h : dir ∈ w.fs.usableDirs) :
    FileWriter.new w dir file_size =
      ({ w with createdWriters := w.createdWriters ++ [LogWriter.fileWriter dir file_size] },
       Except.ok (LogWriter.fileWriter dir file_size)) := by
  simp [FileWriter.new, h]

/-- Evaluation of `FileWriter::new` on an unusable directory: I/O error, no resource. -/
theorem FileWriter.new_unusable (w : World) (dir : Str) (file_size : Nat)
    (h : dir ∉ w.fs.usableDirs) :
    FileWriter.new w dir file_size = (w, Except.error ⟨ErrorKind.ioError⟩) := by
  simp [FileWriter.new, h]

/-- Evaluation of `AsyncLoggerNB::new` at an out-of-range capacity. -/
theorem AsyncLoggerNB.new_err (wr : LogWriter) (sz : Nat)
    (h : sz = 0 ∨ sz = USIZE_MAX) :
    AsyncLoggerNB.new wr sz = Except.error ⟨ErrorKind.incorrectBufferSize⟩ := by
  simp [AsyncLoggerNB.new, h]

/-- Evaluation of `AsyncLoggerNB::new` at an in-range capacity. -/
theorem AsyncLoggerNB.new_ok (wr : LogWriter) (sz : Nat)
    (h : ¬ (sz = 0 ∨ sz = USIZE_MAX)) :
    AsyncLoggerNB.new wr sz = Except.ok ⟨wr, sz⟩ := by
  simp [AsyncLoggerNB.new, h]

/-- Any error of `AsyncLoggerNB::new` has the incorrect-buffer-size kind. -/
theorem AsyncLoggerNB.new_error_inv (wr : LogWriter) (sz : Nat) (e : Error)
    (h : AsyncLoggerNB.new wr sz = Except.error e) :
    e = ⟨ErrorKind.incorrectBufferSize⟩ := by
  unfold AsyncLoggerNB.new at h
  split at h
  · cases h; rfl
  · cases h

/-- Any success of `AsyncLoggerNB::new` returns the given writer and size. -/
theorem AsyncLoggerNB.new_ok_inv (wr : LogWriter) (sz : Nat) (al : AsyncLoggerNB)
    (h : AsyncLoggerNB.new wr sz = Except.ok al) : al = ⟨wr, sz⟩ := by
  unfold AsyncLoggerNB.new at h
  split at h
  · cases h
  · cases h; rfl

/-- Evaluation of `Logger::new` on a usable directory: the file writer is created first,
then the queue client decides the outcome. -/
theorem Logger.new_eval (w : World) (dir : Str) (buf_sz file_size : Nat)
    (h : dir ∈ w.fs.usableDirs) :
    Logger.new w dir buf_sz file_size =
      ({ w with createdWriters := w.createdWriters ++ [LogWriter.fileWriter dir file_size] },
       match AsyncLoggerNB.new (LogWriter.fileWriter dir file_size) buf_sz with
       | Except.error e => Except.error e
       | Except.ok al => Except.ok ⟨al, Logger.format_msg⟩) := by
  have hfw := FileWriter.new_usable w dir file_size h
  cases hal : AsyncLoggerNB.new (LogWriter.fileWriter dir file_size) buf_sz with
  | error e => simp [Logger.new, hfw, hal]
  | ok al => simp [Logger.new, hfw, hal]

/-- Evaluation of `Logger::new` on an unusable directory: the I/O error of the writer is
returned and nothing is created. -/
theorem Logger.new_missing_dir_eval (w : World) (dir : Str) (buf_sz file_size : Nat)
    (h : dir ∉ w.fs.usableDirs) :
    Logger.new w dir buf_sz file_size = (w, Except.error ⟨ErrorKind.ioError⟩) := by
  have hfw := FileWriter.new_unusable w dir file_size h
  simp [Logger.new, hfw]

/-- Evaluation of `build()` with a writer set: no file writer is created; the resolved
capacity and formatter feed the queue-client construction. -/
theorem LoggerBuilder.build_writer_set (w : World) (bs : Option Nat)
    (bf : Option (ClockNanos → Record → Str)) (wr : LogWriter) :
    LoggerBuilder.build w ⟨bs, some wr, bf⟩ =
      (w, match AsyncLoggerNB.new wr (bs.getD DEFAULT_BUF_SIZE) with
          | Except.error e => Except.error e
          | Except.ok al => Except.ok ⟨al, bf.getD Logger.format_msg⟩) := by
  cases hal : AsyncLoggerNB.new wr (bs.getD DEFAULT_BUF_SIZE) with
  | error e => cases bs <;> cases bf <;> simp_all [LoggerBuilder.build, Option.getD]
  | ok al => cases bs <;> cases bf <;> simp_all [LoggerBuilder.build, Option.getD]

/-- Evaluation of `build()` with no writer set and a usable current directory: the default
file writer is created over `.` with the default rotation size. -/
theorem LoggerBuilder.build_writer_default (w : World) (bs : Option Nat)
    (bf : Option (ClockNanos → Record → Str))
    (h : (".").data ∈ w.fs.usableDirs) :
    LoggerBuilder.build w ⟨bs, none, bf⟩ =
      ({ w with createdWriters := w.createdWriters ++
          [LogWriter.fileWriter (".").data DEFAULT_LOG_FILE_SIZE] },
       match AsyncLoggerNB.new (LogWriter.fileWriter (".").data DEFAULT_LOG_FILE_SIZE)
           (bs.getD DEFAULT_BUF_SIZE) with
       | Except.error e => Except.error e
       | Except.ok al => Except.ok ⟨al, bf.getD Logger.format_msg⟩) := by
  have hfw := FileWriter.new_usable w ((".").data) DEFAULT_LOG_FILE_SIZE h
  cases hal : AsyncLoggerNB.new (LogWriter.fileWriter ((".").data) DEFAULT_LOG_FILE_SIZE)
      (bs.getD DEFAULT_BUF_SIZE) with
  | error e => cases bs <;> cases bf <;> simp_all [LoggerBuilder.build, Option.getD]
  | ok al => cases bs <;> cases bf <;> simp_all [LoggerBuilder.build, Option.getD]

/-- Evaluation of `build()` with no writer set and an unusable current directory: the I/O
error of the default writer is returned. -/
theorem LoggerBuilder.build_writer_default_unusable (w : World) (bs : Option Nat)
    (bf : Option (ClockNanos → Record → Str))
    (h : (".").data ∉ w.fs.usableDirs) :
    LoggerBuilder.build w ⟨bs, none, bf⟩ = (w, Except.error ⟨ErrorKind.ioError⟩) := by
  have hfw := FileWriter.new_unusable w ((".").data) DEFAULT_LOG_FILE_SIZE h
  cases bs <;> cases bf <;> simp_all [LoggerBuilder.build]

/-- C1 (amended): for a usable log directory and any rotation size,
`Logger::new` with capacity `0` or `usize::MAX` fails with the
incorrect-buffer-size error kind, and so does `LoggerBuilder::build` with
`buf_size` set to `0` or `usize::MAX` and a writer provided; for every
capacity strictly between the bounds both constructions succeed. -/
theorem buffer_size_bounds_checked (w : World) (dir : Str) (wr : LogWriter)
    (file_size n : Nat) (hdir : dir ∈ w.fs.usableDirs) :
    resultErrorKind (Logger.new w dir 0 file_size).2
        = some ErrorKind.incorrectBufferSize ∧
    resultErrorKind (Logger.new w dir USIZE_MAX file_size).2
        = some ErrorKind.incorrectBufferSize ∧
    resultErrorKind (LoggerBuilder.build w ((Logger.builder.buf_size 0).set_writer wr)).2
        = some ErrorKind.incorrectBufferSize ∧
    resultErrorKind
        (LoggerBuilder.build w ((Logger.builder.buf_size USIZE_MAX).set_writer wr)).2
        = some ErrorKind.incorrectBufferSize ∧
    (0 < n → n < USIZE_MAX →
      resultErrorKind (Logger.new w dir n file_size).2 = none ∧
      resultErrorKind
          (LoggerBuilder.build w ((Logger.builder.buf_size n).set_writer wr)).2 = none) := by
  have hb : ∀ sz : Nat, (Logger.builder.buf_size sz).set_writer wr
      = (⟨some sz, some wr, none⟩ : LoggerBuilder) := fun _ => rfl
  refine ⟨?_, ?_, ?_, ?_, ?_⟩
  · rw [Logger.new_eval w dir 0 file_size hdir,
      AsyncLoggerNB.new_err _ 0 (Or.inl rfl)]
    rfl
  · rw [Logger.new_eval w dir USIZE_MAX file_size hdir,
      AsyncLoggerNB.new_err _ USIZE_MAX (Or.inr rfl)]
    rfl
  · rw [hb 0, LoggerBuilder.build_writer_set w (some 0) none wr,
      show (some 0).getD DEFAULT_BUF_SIZE = 0 from rfl,
      AsyncLoggerNB.new_err wr 0 (Or.inl rfl)]
    rfl
  · rw [hb USIZE_MAX, LoggerBuilder.build_writer_set w (some USIZE_MAX) none wr,
      show (some USIZE_MAX).getD DEFAULT_BUF_SIZE = USIZE_MAX from rfl,
      AsyncLoggerNB.new_err wr USIZE_MAX (Or.inr rfl)]
    rfl
  · intro h0 hm
    have hne : ¬ (n = 0 ∨ n = USIZE_MAX) := by
      rintro (rfl | rfl)
      · exact Nat.lt_irrefl 0 h0
      · exact Nat.lt_irrefl USIZE_MAX hm
    constructor
    · rw [Logger.new_eval w dir n file_size hdir, AsyncLoggerNB.new_ok _ n hne]
      rfl
    · rw [hb n, LoggerBuilder.build_writer_set w (some n) none wr,
        show (some n).getD DEFAULT_BUF_SIZE = n from rfl,
        AsyncLoggerNB.new_ok wr n hne]
      rfl

/-- C1 witness: concrete instances of the amended claim at capacity `0`,
`usize::MAX` and `100` over a usable directory. -/
theorem buffer_size_bounds_checked_witness :
    resultErrorKind (Logger.new sampleWorld sampleDir 0 4096).2
        = some ErrorKind.incorrectBufferSize ∧
    resultErrorKind (Logger.new sampleWorld sampleDir USIZE_MAX 4096).2
        = some ErrorKind.incorrectBufferSize ∧
    resultErrorKind
        (LoggerBuilder.build sampleWorld
          ((Logger.builder.buf_size 0).set_writer sampleWriter)).2
        = some ErrorKind.incorrectBufferSize ∧
    resultErrorKind
        (LoggerBuilder.build sampleWorld
          ((Logger.builder.buf_size USIZE_MAX).set_writer sampleWriter)).2
        = some ErrorKind.incorrectBufferSize ∧
    resultErrorKind (Logger.new sampleWorld sampleDir 100 4096).2 = none ∧
    resultErrorKind
        (LoggerBuilder.build sampleWorld
          ((Logger.builder.buf_size 100).set_writer sampleWriter)).2 = none :=
  ⟨(buffer_size_bounds_checked sampleWorld sampleDir sampleWriter 4096 100 (by decide)).1,
   (buffer_size_bounds_checked sampleWorld sampleDir sampleWriter 4096 100 (by decide)).2.1,
   (buffer_size_bounds_checked sampleWorld sampleDir sampleWriter 4096 100 (by decide)).2.2.1,
   (buffer_size_bounds_checked sampleWorld sampleDir sampleWriter 4096 100 (by decide)).2.2.2.1,
   ((buffer_size_bounds_checked sampleWorld sampleDir sampleWriter 4096 100 (by decide)).2.2.2.2
      (by decide) (by decide)).1,
   ((buffer_size_bounds_checked sampleWorld sampleDir sampleWriter 4096 100 (by decide)).2.2.2.2
      (by decide) (by decide)).2⟩

/-- C5: `build()` uses the fields that were set and applies the defaults
for exactly the unset ones: capacity 256, a rotating file writer over the
current directory with rotation size `10*1024*1024`, and the default
formatter `Logger::format_msg`. -/
theorem build_defaults_for_unset_fields (w : World) (b : LoggerBuilder)
    (l : Logger) (h : (LoggerBuilder.build w b).2 = Except.ok l) :
    l.async_logger.buf_sz = b.buf_sz.getD 256 ∧
    l.async_logger.writer
        = b.writer.getD (LogWriter.fileWriter (".").data (10 * 1024 * 1024)) ∧
    l.formatter = b.formatter.getD Logger.format_msg := by
  obtain ⟨bs, bw, bf⟩ := b
  have h256 : DEFAULT_BUF_SIZE = 256 := rfl
  have hsz : DEFAULT_LOG_FILE_SIZE = 10 * 1024 * 1024 := rfl
  cases bw with
  | some wr =>
    rw [LoggerBuilder.build_writer_set w bs bf wr] at h
    cases hal : AsyncLoggerNB.new wr (bs.getD DEFAULT_BUF_SIZE) with
    | error e => rw [hal] at h; cases h
    | ok al =>
      rw [hal] at h
      cases h
      have := AsyncLoggerNB.new_ok_inv wr (bs.getD DEFAULT_BUF_SIZE) al hal
      subst this
      exact ⟨by rw [h256], rfl, rfl⟩
  | none =>
    by_cases hdot : (".").data ∈ w.fs.usableDirs
    · rw [LoggerBuilder.build_writer_default w bs bf hdot] at h
      cases hal : AsyncLoggerNB.new
          (LogWriter.fileWriter ((".").data) DEFAULT_LOG_FILE_SIZE)
          (bs.getD DEFAULT_BUF_SIZE) with
      | error e => rw [hal] at h; cases h
      | ok al =>
        rw [hal] at h
        cases h
        have := AsyncLoggerNB.new_ok_inv _ _ al hal
        subst this
        exact ⟨by rw [h256], by rw [hsz]; rfl, rfl⟩
    · rw [LoggerBuilder.build_writer_default_unusable w bs bf hdot] at h
      cases h

/-- The logger produced by `build()` with every field unset. -/
def defaultLogger : Logger :=
  ⟨⟨LogWriter.fileWriter (".").data DEFAULT_LOG_FILE_SIZE, DEFAULT_BUF_SIZE⟩,
   Logger.format_msg⟩

/-- C5 witness: building with the empty builder in a world where the
current directory is usable yields the logger with all three defaults. -/
theorem build_defaults_for_unset_fields_witness :
    defaultLogger.async_logger.buf_sz = Logger.builder.buf_sz.getD 256 ∧
    defaultLogger.async_logger.writer
        = Logger.builder.writer.getD (LogWriter.fileWriter (".").data (10 * 1024 * 1024)) ∧
    defaultLogger.formatter = Logger.builder.formatter.getD Logger.format_msg :=
  build_defaults_for_unset_fields dotWorld Logger.builder defaultLogger (by
    rw [show Logger.builder = (⟨none, none, none⟩ : LoggerBuilder) from rfl,
      LoggerBuilder.build_writer_default dotWorld none none (by decide),
      show (none : Option Nat).getD DEFAULT_BUF_SIZE = DEFAULT_BUF_SIZE from rfl,
      AsyncLoggerNB.new_ok _ DEFAULT_BUF_SIZE (by decide)]
    rfl)

/-- C6 counterexample: on an incorrect-buffer-size failure of `Logger::new`
a writer resource has already been created: `FileWriter::new` runs before
the queue-client construction that rejects the capacity, so the failed
construction does not leave the world untouched. -/
theorem failed_construction_writer_created_cex :
    resultErrorKind (Logger.new sampleWorld sampleDir 0 4096).2
        = some ErrorKind.incorrectBufferSize ∧
    (Logger.new sampleWorld sampleDir 0 4096).1.createdWriters ≠ [] := by
  constructor
  · rfl
  · decide

/-- C6 (amended): when construction fails the caller receives only an error
and never a partially built `Logger`; on an I/O failure no writer has been
created, but on an incorrect-buffer-size failure of `Logger::new` the file
writer has already been created (and is then discarded, referenced by no
logger). -/
theorem failed_construction_no_partial_logger (w : World) (dir : Str)
    (buf_sz file_size : Nat) (e : Error)
    (h : (Logger.new w dir buf_sz file_size).2 = Except.error e) :
    (e.kind = ErrorKind.ioError →
      (Logger.new w dir buf_sz file_size).1.createdWriters = w.createdWriters) ∧
    (e.kind = ErrorKind.incorrectBufferSize →
      (Logger.new w dir buf_sz file_size).1.createdWriters
        = w.createdWriters ++ [LogWriter.fileWriter dir file_size]) := by
  by_cases hdir : dir ∈ w.fs.usableDirs
  · rw [Logger.new_eval w dir buf_sz file_size hdir] at h ⊢
    cases hal : AsyncLoggerNB.new (LogWriter.fileWriter dir file_size) buf_sz with
    | error e0 =>
      rw [hal] at h
      cases h
      have hk := AsyncLoggerNB.new_error_inv _ _ _ hal
      subst hk
      exact ⟨(fun hik => nomatch hik), (fun _ => rfl)⟩
    | ok al =>
      rw [hal] at h
      cases h
  · rw [Logger.new_missing_dir_eval w dir buf_sz file_size hdir] at h ⊢
    cases h
    exact ⟨(fun _ => rfl), (fun hik => nomatch hik)⟩

/-- C6 witness: the two failure modes at concrete inputs: an unusable
directory creates nothing; a zero capacity over a usable directory has
created exactly the file writer. -/
theorem failed_construction_no_partial_logger_witness :
    (Logger.new emptyWorld sampleDir 5 4096).1.createdWriters
        = emptyWorld.createdWriters ∧
    (Logger.new sampleWorld sampleDir 0 4096).1.createdWriters
        = sampleWorld.createdWriters ++ [LogWriter.fileWriter sampleDir 4096] :=
  ⟨(failed_construction_no_partial_logger emptyWorld sampleDir 5 4096
      ⟨ErrorKind.ioError⟩ rfl).1 rfl,
   (failed_construction_no_partial_logger sampleWorld sampleDir 0 4096
      ⟨ErrorKind.incorrectBufferSize⟩ rfl).2 rfl⟩

/-- On a running queue, a sequence of `log` calls appends the formatted
lines to the pending queue in call order, touching nothing else. -/
theorem logAll_pending (l : Logger) (evs : List (ClockNanos × Record)) :
    ∀ q : QueueState, q.shutdown = false →
      logAll l q evs =
        ⟨q.pending ++ evs.map (fun e => l.formatter e.1 e.2), q.delivered, false⟩ := by
  induction evs with
  | nil =>
    intro q hq
    obtain ⟨p, d, s⟩ := q
    cases hq
    simp [logAll]
  | cons e t ih =>
    intro q hq
    have hlog : Logger.log l q e.1 e.2
        = { q with pending := q.pending ++ [l.formatter e.1 e.2] } := by
      simp [Logger.log, AsyncLoggerNB.write_value, hq]
    have hstep : logAll l q (e :: t) = logAll l (Logger.log l q e.1 e.2) t := rfl
    have ih2 := ih ⟨q.pending ++ [l.formatter e.1 e.2], q.delivered, false⟩ rfl
    rw [hstep, hlog, hq, ih2]
    simp

/-- C8: every line accepted by the queue during a sequence of `Logger::log`
calls on one thread is handed to the writer strategy exactly once and in
submission order once `Logger::flush` runs, and after the flush nothing is
left pending: the delivered list extends the previous one by exactly the
formatted records, in order. -/
theorem flush_delivers_accepted_lines_in_order (l : Logger) (q : QueueState)
    (evs : List (ClockNanos × Record)) (hq : q.shutdown = false) :
    (Logger.flush l (logAll l q evs)).delivered
        = q.delivered ++ q.pending ++ evs.map (fun e => l.formatter e.1 e.2) ∧
    (Logger.flush l (logAll l q evs)).pending = [] := by
  rw [logAll_pending l evs q hq]
  constructor
  · simp [Logger.flush, AsyncLoggerNB.flush, List.append_assoc]
  · rfl

/-- C8 witness: two records logged on an empty running queue are delivered
by the flush, in order, leaving nothing pending. -/
theorem flush_delivers_accepted_lines_in_order_witness :
    (Logger.flush sampleLogger
        (logAll sampleLogger openQueue [(0, sampleRecord), (1, sampleRecord)])).delivered
      = openQueue.delivered ++ openQueue.pending ++
          ([(0, sampleRecord), (1, sampleRecord)].map
            (fun e => sampleLogger.formatter e.1 e.2)) ∧
    (Logger.flush sampleLogger
        (logAll sampleLogger openQueue [(0, sampleRecord), (1, sampleRecord)])).pending
      = [] :=
  flush_delivers_accepted_lines_in_order sampleLogger openQueue
    [(0, sampleRecord), (1, sampleRecord)] rfl

/-- A line `u ++ v ++ "\n"` ends with exactly one newline when the chunk
`u` ends with a space and `v` does not end with a newline. -/
theorem trailingNewlineCount_line (u v : Str)
    (hu : u.reverse.head? = some (' '))
    (hv : v.reverse.head? ≠ some ('\n')) :
    trailingNewlineCount (u ++ v ++ ("\n").data) = 1 := by
  have hassoc : u ++ v ++ ("\n").data = (u ++ v) ++ ['\n'] := by
    simp [List.append_assoc]
  have hrest : List.takeWhile (fun c => c == '\n') (v.reverse ++ u.reverse) = [] := by
    cases hvv : v.reverse with
    | nil =>
      cases huu : u.reverse with
      | nil => rfl
      | cons a t =>
        rw [huu] at hu
        have ha : a = ' ' := by
          simpa using hu
        subst ha
        rfl
    | cons a t =>
      rw [hvv] at hv
      have ha : ¬ (a = '\n') := by
        intro hcontra
        exact hv (by rw [hcontra]; rfl)
      have hba : (a == '\n') = false := beq_eq_false_iff_ne.mpr ha
      simp [List.takeWhile_cons, hba]
  rw [trailingNewlineCount, hassoc, List.reverse_append, List.reverse_append]
  have hcons : ((['\n'] : Str).reverse) ++ (v.reverse ++ u.reverse)
      = '\n' :: (v.reverse ++ u.reverse) := rfl
  rw [hcons]
  have hstep : List.takeWhile (fun c => c == '\n') ('\n' :: (v.reverse ++ u.reverse))
      = '\n' :: List.takeWhile (fun c => c == '\n') (v.reverse ++ u.reverse) := by
    simp [List.takeWhile_cons]
  rw [hstep, hrest]
  rfl

/-- C4 counterexample: for a record whose message itself ends with a
newline, the formatted line ends with two newline characters, not exactly
one; the formatter appends its own newline unconditionally. -/
theorem format_trailing_newline_cex :
    trailingNewlineCount
        (Logger.format_msg 0 ⟨Level.warn, ("thread").data, ("log message\n").data⟩)
      ≠ 1 := by decide

/-- C4 (amended): the default formatter renders
`[<timestamp> <LEVEL> <target>]: <message>` followed by one appended
newline, with the level in upper case and the timestamp either the decimal
seconds since the epoch (`time` feature disabled) or the formatted local
date-time (`time` feature enabled); the output ends with exactly one
trailing newline provided the message itself does not end with one. -/
theorem format_msg_line_shape (now : ClockNanos) (tstr : Str) (r : Record) :
    Logger.format_msg now r =
      ("[").data ++ natToStr (((duration_since_epoch now).toOption.getD 0) / 1000000000)
        ++ (" ").data ++ r.level.name ++ (" ").data ++ r.target ++ ("]: ").data
        ++ r.args ++ ("\n").data ∧
    Logger.format_msg_time tstr r =
      ("[").data ++ tstr ++ (" ").data ++ r.level.name ++ (" ").data ++ r.target
        ++ ("]: ").data ++ r.args ++ ("\n").data ∧
    r.level.name.all (fun c => c.isUpper) = true ∧
    (r.args.getLast? ≠ some ('\n') →
      trailingNewlineCount (Logger.format_msg now r) = 1 ∧
      trailingNewlineCount (Logger.format_msg_time tstr r) = 1) := by
  obtain ⟨lv, tg, ag⟩ := r
  refine ⟨rfl, rfl, ?_, ?_⟩
  · have hname : ∀ l : Level, l.name.all (fun c => c.isUpper) = true := by
      intro l
      cases l <;> decide
    exact hname lv
  · intro ha
    have hv : ag.reverse.head? ≠ some ('\n') := by
      rw [List.head?_reverse]
      exact ha
    constructor
    · have e1 : Logger.format_msg now ⟨lv, tg, ag⟩ =
          (("[").data ++ natToStr (((duration_since_epoch now).toOption.getD 0) / 1000000000)
            ++ (" ").data ++ lv.name ++ (" ").data ++ tg ++ ("]: ").data)
          ++ ag ++ ("\n").data := by
        simp [Logger.format_msg, List.append_assoc]
      rw [e1]
      apply trailingNewlineCount_line _ ag _ hv
      rw [List.reverse_append]
      rfl
    · have e2 : Logger.format_msg_time tstr ⟨lv, tg, ag⟩ =
          (("[").data ++ tstr ++ (" ").data ++ lv.name ++ (" ").data ++ tg
            ++ ("]: ").data) ++ ag ++ ("\n").data := by
        simp [Logger.format_msg_time, List.append_assoc]
      rw [e2]
      apply trailingNewlineCount_line _ ag _ hv
      rw [List.reverse_append]
      rfl

/-- C4 witness: at the sample record (message not ending in a newline) both
formatter variants produce exactly one trailing newline. -/
theorem format_msg_line_shape_witness :
    trailingNewlineCount (Logger.format_msg 0 sampleRecord) = 1 ∧
    trailingNewlineCount (Logger.format_msg_time (("ts").data) sampleRecord) = 1 :=
  (format_msg_line_shape 0 (("ts").data) sampleRecord).2.2.2 (by decide)
